import Mathlib

/-!
Verification development for the `check_shapes` tensor-shape annotation engine
of this GPflow snapshot.

The repository snapshot contains the test corpus of the parser
(`tests/gpflow/experimental/check_shapes/test_parser.py`) but not the
implementation modules themselves, so the executable definitions below are
modelled from the grammar, data model and algorithms of the specification, and are
validated byte-for-byte against the expected strings of the in-repository test
corpus (transcribed verbatim further down).
-/

set_option maxRecDepth 40000

namespace CheckShapes

/-! ## Character classes (lexical classes of the declaration grammar) -/

/-- Whitespace, as skipped by the tokenizer. -/
def isWS (c : Char) : Bool :=
  c == ' ' || c == '\n' || c == '\t' || c == '\r'

/-- First character of a variable name: `[A-Za-z_]`. -/
def identStartB (c : Char) : Bool :=
  ('A' ≤ c && c ≤ 'Z') || ('a' ≤ c && c ≤ 'z') || c == '_'

/-- Later character of a variable name: `[A-Za-z0-9_]`. -/
def identRestB (c : Char) : Bool :=
  identStartB c || c.isDigit

/-- Longest prefix of characters satisfying `p`, together with the rest. -/
def spanP (p : Char → Bool) : List Char → List Char × List Char
  | [] => ([], [])
  | c :: cs =>
    if p c then
      let r := spanP p cs
      (c :: r.1, r.2)
    else ([], c :: cs)

/-- Proposition: the first character of `r` (if any) fails `p`. -/
def headFails (p : Char → Bool) : List Char → Prop
  | [] => True
  | c :: _ => p c = false

theorem spanP_append (p : Char → Bool) :
    ∀ (l r : List Char), (∀ c ∈ l, p c = true) → headFails p r →
      spanP p (l ++ r) = (l, r) := by
  intro l
  induction l with
  | nil =>
    intro r _ hr
    cases r with
    | nil => rfl
    | cons c cs =>
      simp only [headFails] at hr
      simp [spanP, hr]
  | cons c cs ih =>
    intro r hl hr
    have hc : p c = true := hl c (by simp)
    have hrec := ih r (fun x hx => hl x (by simp [hx])) hr
    simp [spanP, hc, hrec]

/-! ## Decimal digits -/

/-- Numeric value of a run of decimal digit characters (most significant first). -/
def digitsVal (l : List Char) : Nat :=
  l.foldl (fun a c => 10 * a + (c.toNat - 48)) 0

/-- Fuel-indexed digit expansion; `fuel > n` always suffices. -/
def natDigitsGo : Nat → Nat → List Char
  | 0, _ => []
  | fuel + 1, n =>
    if n < 10 then [Nat.digitChar n]
    else natDigitsGo fuel (n / 10) ++ [Nat.digitChar (n % 10)]

/-- Canonical decimal digits of a natural number, as the display code of the repository prints integers (Python `str(n)`). -/
def natDigits (n : Nat) : List Char := natDigitsGo (n + 1) n

theorem digitChar_isDigit : ∀ d : Nat, d < 10 → (Nat.digitChar d).isDigit = true := by
  decide

theorem digitChar_val : ∀ d : Nat, d < 10 → (Nat.digitChar d).toNat - 48 = d := by
  decide

theorem digitsVal_concat (l : List Char) (c : Char) :
    digitsVal (l ++ [c]) = 10 * digitsVal l + (c.toNat - 48) := by
  simp [digitsVal, List.foldl_append]

theorem natDigitsGo_spec :
    ∀ (fuel n : Nat), n < fuel →
      digitsVal (natDigitsGo fuel n) = n ∧
      (∀ c ∈ natDigitsGo fuel n, c.isDigit = true) ∧
      natDigitsGo fuel n ≠ [] := by
  intro fuel
  induction fuel with
  | zero => intro n h; omega
  | succ fuel ih =>
    intro n h
    by_cases h10 : n < 10
    · refine ⟨?_, ?_, ?_⟩
      · simp [natDigitsGo, h10, digitsVal, digitChar_val n h10]
      · intro c hc
        simp only [natDigitsGo, h10, if_true, List.mem_singleton] at hc
        subst hc
        exact digitChar_isDigit n h10
      · simp [natDigitsGo, h10]
    · have hdiv : n / 10 < fuel := by
        have : n / 10 < n := Nat.div_lt_self (by omega) (by omega)
        omega
      obtain ⟨ihv, ihd, ihn⟩ := ih (n / 10) hdiv
      refine ⟨?_, ?_, ?_⟩
      · rw [show natDigitsGo (fuel + 1) n
            = natDigitsGo fuel (n / 10) ++ [Nat.digitChar (n % 10)] by
              simp [natDigitsGo, h10]]
        rw [digitsVal_concat, ihv, digitChar_val (n % 10) (Nat.mod_lt n (by omega))]
        omega
      · intro c hc
        simp only [natDigitsGo, h10, if_false, List.mem_append, List.mem_singleton] at hc
        cases hc with
        | inl hc => exact ihd c hc
        | inr hc =>
          subst hc
          exact digitChar_isDigit (n % 10) (Nat.mod_lt n (by omega))
      · simp [natDigitsGo, h10]

theorem digitsVal_natDigits (n : Nat) : digitsVal (natDigits n) = n :=
  (natDigitsGo_spec (n + 1) n (by omega)).1

theorem natDigits_all_digit (n : Nat) : ∀ c ∈ natDigits n, c.isDigit = true :=
  (natDigitsGo_spec (n + 1) n (by omega)).2.1

theorem natDigits_ne_nil (n : Nat) : natDigits n ≠ [] :=
  (natDigitsGo_spec (n + 1) n (by omega)).2.2

/-! ## Argument references

An `ArgumentRef` is a root name plus a path of attribute and index steps,
per the `ref` grammar:
`ref := identifier ( "." identifier | "[" integer "]" )*`. -/

/-- One path step of an argument reference. -/
inductive RefStep where
  | attr (name : String)
  | idx (n : Nat)
  deriving DecidableEq, Repr

/-- A reference to (a part of) an argument or the return value. -/
structure ArgumentRef where
  root : String
  steps : List RefStep
  deriving DecidableEq, Repr

/-- Characters of the display form of one step: `.name` or `[n]`. -/
def stepChars : RefStep → List Char
  | .attr s => '.' :: s.toList
  | .idx n => '[' :: (natDigits n ++ [']'])

/-- Characters of the display form of a step sequence. -/
def stepsChars (l : List RefStep) : List Char :=
  l.foldr (fun s acc => stepChars s ++ acc) []

/-- Display form of an argument reference: root then each step, left to right. -/
def displayRef (r : ArgumentRef) : String :=
  String.mk (r.root.toList ++ stepsChars r.steps)

/-- Fuel-indexed step sequence reader for the `ref` grammar. -/
def refStepsGo : Nat → List Char → Option (List RefStep)
  | _, [] => some []
  | 0, _ :: _ => none
  | fuel + 1, '.' :: cs =>
    match cs with
    | [] => none
    | c :: cs2 =>
      if identStartB c then
        let r := spanP identRestB cs2
        (refStepsGo fuel r.2).map (fun st => .attr (String.mk (c :: r.1)) :: st)
      else none
  | fuel + 1, '[' :: cs =>
    match spanP (fun c => c.isDigit) cs with
    | ([], _) => none
    | (d :: ds, rest) =>
      match rest with
      | ']' :: cs2 => (refStepsGo fuel cs2).map (fun st => .idx (digitsVal (d :: ds)) :: st)
      | _ => none
  | _ + 1, _ :: _ => none

/-- Parse an argument reference string per the `ref` grammar; `none` on any
text that does not conform. -/
def parseArgumentRef (s : String) : Option ArgumentRef :=
  match s.toList with
  | [] => none
  | c :: cs =>
    if identStartB c then
      let r := spanP identRestB cs
      (refStepsGo r.2.length r.2).map (fun st => ⟨String.mk (c :: r.1), st⟩)
    else none

/-- Well-formedness of the identifiers inside an `ArgumentRef`. -/
def validIdentB (s : String) : Bool :=
  match s.toList with
  | [] => false
  | c :: cs => identStartB c && cs.all identRestB

/-- A reference whose root and attribute names are valid identifiers. -/
def wellFormedRef (r : ArgumentRef) : Bool :=
  validIdentB r.root && r.steps.all (fun st =>
    match st with
    | .attr nm => validIdentB nm
    | .idx _ => true)

theorem headFails_identRest_stepsChars (steps : List RefStep) :
    headFails identRestB (stepsChars steps) := by
  cases steps with
  | nil => trivial
  | cons s rest =>
    cases s with
    | attr nm => simp [stepsChars, stepChars, headFails, identRestB, identStartB]
    | idx n => simp [stepsChars, stepChars, headFails, identRestB, identStartB]

theorem stepsChars_cons (s : RefStep) (rest : List RefStep) :
    stepsChars (s :: rest) = stepChars s ++ stepsChars rest := rfl

theorem length_le_stepsChars (steps : List RefStep) :
    steps.length ≤ (stepsChars steps).length := by
  induction steps with
  | nil => simp [stepsChars]
  | cons s rest ih =>
    rw [stepsChars_cons, List.length_append, List.length_cons]
    have h1 : 1 ≤ (stepChars s).length := by
      cases s <;> simp [stepChars]
    omega

theorem string_mk_toList (s : String) : String.mk s.toList = s := rfl

theorem refStepsGo_stepsChars :
    ∀ (steps : List RefStep) (fuel : Nat), steps.length ≤ fuel →
    (∀ st ∈ steps, (match st with
      | RefStep.attr nm => validIdentB nm
      | RefStep.idx _ => true) = true) →
    refStepsGo fuel (stepsChars steps) = some steps := by
  intro steps
  induction steps with
  | nil =>
    intro fuel _ _
    cases fuel <;> rfl
  | cons s rest ih =>
    intro fuel hfuel hwf
    obtain ⟨f, rfl⟩ : ∃ f, fuel = f + 1 := by
      cases fuel
      · simp at hfuel
      · exact ⟨_, rfl⟩
    have hrest : ∀ st ∈ rest, (match st with
        | RefStep.attr nm => validIdentB nm
        | RefStep.idx _ => true) = true :=
      fun st hst => hwf st (by simp [hst])
    have hfr : rest.length ≤ f := by simp at hfuel; omega
    cases s with
    | attr nm =>
      have hnm : validIdentB nm = true := hwf (.attr nm) (by simp)
      unfold validIdentB at hnm
      cases hl : nm.toList with
      | nil => rw [hl] at hnm; simp at hnm
      | cons c cs =>
        rw [hl] at hnm
        simp only [Bool.and_eq_true, List.all_eq_true] at hnm
        have hspan : spanP identRestB (cs ++ stepsChars rest) = (cs, stepsChars rest) :=
          spanP_append identRestB cs (stepsChars rest)
            (fun x hx => hnm.2 x hx) (headFails_identRest_stepsChars rest)
        have hchars : stepsChars (RefStep.attr nm :: rest)
            = '.' :: c :: (cs ++ stepsChars rest) := by
          rw [stepsChars_cons]
          show ('.' :: nm.toList) ++ stepsChars rest = _
          rw [hl]
          rfl
        rw [hchars]
        simp only [refStepsGo, hnm.1, if_true, hspan]
        rw [ih f hfr hrest]
        have : String.mk (c :: cs) = nm := by
          rw [← hl]; exact string_mk_toList nm
        simp [this]
    | idx n =>
      have hchars : stepsChars (RefStep.idx n :: rest)
          = '[' :: (natDigits n ++ (']' :: stepsChars rest)) := by
        rw [stepsChars_cons]
        simp [stepChars]
      have hspan : spanP (fun c => c.isDigit) (natDigits n ++ (']' :: stepsChars rest))
          = (natDigits n, ']' :: stepsChars rest) :=
        spanP_append _ (natDigits n) (']' :: stepsChars rest)
          (natDigits_all_digit n) (by simp [headFails])
      cases hd : natDigits n with
      | nil => exact absurd hd (natDigits_ne_nil n)
      | cons d ds =>
        rw [hd] at hspan
        rw [hchars, hd]
        simp only [refStepsGo, hspan]
        rw [ih f hfr hrest]
        have hval : digitsVal (d :: ds) = n := by
          rw [← hd]; exact digitsVal_natDigits n
        simp [hval]

theorem parse_displayRef (r : ArgumentRef) (h : wellFormedRef r = true) :
    parseArgumentRef (displayRef r) = some r := by
  obtain ⟨root, steps⟩ := r
  unfold wellFormedRef at h
  simp only [Bool.and_eq_true, List.all_eq_true] at h
  have hroot := h.1
  unfold validIdentB at hroot
  cases hl : root.toList with
  | nil => rw [hl] at hroot; simp at hroot
  | cons c cs =>
    rw [hl] at hroot
    simp only [Bool.and_eq_true, List.all_eq_true] at hroot
    have hchars : (displayRef ⟨root, steps⟩).toList = c :: (cs ++ stepsChars steps) := by
      show root.toList ++ stepsChars steps = _
      rw [hl]
      rfl
    have hspan : spanP identRestB (cs ++ stepsChars steps) = (cs, stepsChars steps) :=
      spanP_append identRestB cs (stepsChars steps)
        (fun x hx => hroot.2 x hx) (headFails_identRest_stepsChars steps)
    unfold parseArgumentRef
    rw [hchars]
    simp only [hroot.1, if_true, hspan]
    rw [refStepsGo_stepsChars steps (stepsChars steps).length
      (length_le_stepsChars steps) h.2]
    have : String.mk (c :: cs) = root := by
      rw [← hl]; exact string_mk_toList root
    simp [this]

/-! ## Dimension specifications and display -/

/-- A single declared dimension, per the `dim` grammar production. -/
inductive DimSpec where
  | constant (n : Nat)
  | named (v : String)
  | anonymous
  | varrankNamed (v : String)
  | varrankAnonymous
  deriving DecidableEq, Repr

/-- Display of one dimension as used in rewritten docstrings. -/
def displayDim : DimSpec → String
  | .constant n => String.mk (natDigits n)
  | .named v => "*" ++ v ++ "*"
  | .anonymous => "."
  | .varrankNamed v => "*" ++ v ++ "*..."
  | .varrankAnonymous => "..."

/-- Display of a dims list, joined with a comma and a space. -/
def displayDims (dims : List DimSpec) : String :=
  String.intercalate ", " (dims.map displayDim)

/-- True for the variable-rank dimension forms. -/
def isVarrank : DimSpec → Bool
  | .varrankNamed _ => true
  | .varrankAnonymous => true
  | _ => false

/-- Number of variable-rank dimensions in a dims list. -/
def countVarrank (dims : List DimSpec) : Nat :=
  (dims.filter isVarrank).length

/-- One declared line: (reference, dims, optional note). -/
structure ParsedArgumentSpec where
  ref : ArgumentRef
  dims : List DimSpec
  note : Option String
  deriving DecidableEq, Repr

/-- The whole specification of a function: declarations in declaration order
plus free-floating notes. -/
structure ParsedFunctionSpec where
  args : List ParsedArgumentSpec
  notes : List String
  deriving DecidableEq, Repr

/-! ## Tokenizer

Modelled from the spec: lexical classes are `variable name`
(`[A-Za-z_][A-Za-z0-9_]*`) and `integer` (`[0-9]+`); the literal tokens are
":", ".", "...", ",", "[", "]", "*"; whitespace (including newlines inside a
multi-line declaration) separates tokens; "#" starts a note that runs to the
end of the declaration, with internal whitespace runs folded to single
spaces. A character that starts no token is kept as an unusable token so
that the parser reports its position with the alternatives it expected. -/

inductive Tok where
  | name (s : String)
  | int (v : Nat)
  | sym (s : String)
  | note (s : String)
  | bad
  deriving DecidableEq, Repr

/-- A token paired with the index of its first character in the input. -/
structure PTok where
  tok : Tok
  pos : Nat
  deriving DecidableEq, Repr

/-- Splits a character list into whitespace-separated words. -/
def wordsGo : Nat → List Char → List (List Char)
  | 0, _ => []
  | _ + 1, [] => []
  | fuel + 1, c :: cs =>
    if isWS c then wordsGo fuel cs
    else
      let r := spanP (fun x => !isWS x) cs
      (c :: r.1) :: wordsGo fuel r.2

/-- Joins character lists with a separator. -/
def joinWith (sep : List Char) : List (List Char) → List Char
  | [] => []
  | [x] => x
  | x :: xs => x ++ sep ++ joinWith sep xs

/-- Note text normalization: whitespace runs (including newlines) fold to one
space and surrounding whitespace is trimmed. -/
def noteNorm (l : List Char) : String :=
  String.mk (joinWith [' '] (wordsGo (l.length + 1) l))

def tokGo : Nat → Nat → List Char → List PTok
  | 0, _, _ => []
  | _ + 1, _, [] => []
  | fuel + 1, i, c :: cs =>
    if isWS c then tokGo fuel (i + 1) cs
    else if c == '#' then [⟨.note (noteNorm cs), i⟩]
    else if identStartB c then
      let r := spanP identRestB cs
      ⟨.name (String.mk (c :: r.1)), i⟩ :: tokGo fuel (i + 1 + r.1.length) r.2
    else if c.isDigit then
      let r := spanP (fun x => x.isDigit) cs
      ⟨.int (digitsVal (c :: r.1)), i⟩ :: tokGo fuel (i + 1 + r.1.length) r.2
    else if c == '.' then
      match cs with
      | '.' :: '.' :: cs2 => ⟨.sym "...", i⟩ :: tokGo fuel (i + 3) cs2
      | _ => ⟨.sym ".", i⟩ :: tokGo fuel (i + 1) cs
    else if c == ':' || c == ',' || c == '[' || c == ']' || c == '*' then
      ⟨.sym (String.mk [c]), i⟩ :: tokGo fuel (i + 1) cs
    else [⟨.bad, i⟩]

def tokenize (l : List Char) : List PTok := tokGo (l.length + 1) 0 l

/-! ## Error reporting

The renderer reproduces the repository `SpecificationParseError` message
format byte for byte: caller context, 0-indexed argument number, the single
offending physical line quoted with a caret under the position of the
unexpected token (for an unexpected end of input: under the last character),
then either `Expected:` with one alternative or `Expected one of:` with each
alternative on its own line, in the fixed declaration order of the grammar. -/

/-- A parse failure: absolute input position and expected alternatives. -/
structure PErr where
  pos : Nat
  alts : List String
  deriving DecidableEq, Repr

/-- Position used for an unexpected-end-of-input failure. -/
def eofErr (orig : List Char) (alts : List String) : PErr :=
  ⟨orig.length - 1, alts⟩

/-- Splits characters into physical lines. -/
def splitLinesC : List Char → List (List Char)
  | [] => [[]]
  | c :: cs =>
    if c == '\n' then [] :: splitLinesC cs
    else
      match splitLinesC cs with
      | [] => [[c]]
      | l :: ls => (c :: l) :: ls

/-- Zero-based physical line of an absolute position. -/
def lineIdxAt (orig : List Char) (pos : Nat) : Nat :=
  ((orig.take pos).filter (fun c => c == '\n')).length

/-- Zero-based column of an absolute position within its physical line. -/
def colAt (orig : List Char) (pos : Nat) : Nat :=
  ((orig.take pos).reverse.takeWhile (fun c => c != '\n')).length

def spacesC (n : Nat) : List Char := List.replicate n ' '

/-- Lexical-class alternative for variable names, with its pattern. -/
def varNameAlt : String :=
  "variable name (re=(?:(?:[A-Z]|[a-z])|_)(?:(?:(?:[A-Z]|[a-z])|[0-9]|_))*)"

/-- Lexical-class alternative for integers, with its pattern. -/
def intAlt : String := "integer (re=(?:[0-9])+)"

def lineStartAlts : List String := [varNameAlt, "\"#\""]

def afterRootAlts : List String := ["\":\"", "\".\"", "\"[\""]

def dimStartAlts : List String :=
  [varNameAlt, "\".\"", "\"...\"", intAlt, "\"None\"", "\"]\"", "\"*\""]

def dimAfterCommaAlts : List String :=
  [varNameAlt, "\".\"", "\"...\"", intAlt, "\"None\"", "\"*\""]

def afterNamedDimAlts : List String := ["\",\"", "\"...\"", "\"]\""]

def afterDimAlts : List String := ["\",\"", "\"]\""]

/-- Renders a parse failure into the full diagnostic message. -/
def renderErr (ctx : String) (argIdx : Nat) (orig : List Char) (e : PErr) : String :=
  let lineStr := String.mk ((splitLinesC orig).getD (lineIdxAt orig e.pos) [])
  let col := colAt orig e.pos
  let hdr := "\nUnable to parse shape specification.\n  check_shapes called at: " ++ ctx ++
    "\n    Argument number (0-indexed): " ++ Nat.repr argIdx ++ "\n"
  match e.alts with
  | [a] =>
    hdr ++ "      Line:     \"" ++ lineStr ++ "\"\n" ++ String.mk (spacesC (17 + col)) ++
      "^\n      Expected: " ++ a ++ "\n"
  | a :: rest =>
    hdr ++ "      Line:            \"" ++ lineStr ++ "\"\n" ++
      String.mk (spacesC (24 + col)) ++ "^\n" ++
      "      Expected one of: " ++ a ++ "\n" ++
      String.join (rest.map (fun x => "                       " ++ x ++ "\n"))
  | [] => hdr

/-! ## Declaration parser -/

/-- Result of parsing one declaration string: an argument declaration or one
free-floating note. -/
inductive LineResult where
  | arg (a : ParsedArgumentSpec)
  | free (note : String)
  deriving DecidableEq, Repr

/-- Reads the path steps of an argument reference, up to the ":" that starts
the shape part. -/
def refLoop (orig : List Char) : Nat → List PTok → List RefStep →
    Except PErr (List RefStep × List PTok)
  | _, ⟨.sym ":", _⟩ :: rest, acc => .ok (acc, rest)
  | fuel + 1, ⟨.sym ".", _⟩ :: rest, acc =>
    match rest with
    | ⟨.name nm, _⟩ :: rest2 => refLoop orig fuel rest2 (acc ++ [.attr nm])
    | ⟨_, p⟩ :: _ => .error ⟨p, [varNameAlt]⟩
    | [] => .error (eofErr orig [varNameAlt])
  | fuel + 1, ⟨.sym "[", _⟩ :: rest, acc =>
    match rest with
    | ⟨.int v, _⟩ :: rest2 =>
      (match rest2 with
      | ⟨.sym "]", _⟩ :: rest3 => refLoop orig fuel rest3 (acc ++ [.idx v])
      | ⟨_, p⟩ :: _ => .error ⟨p, ["\"]\""]⟩
      | [] => .error (eofErr orig ["\"]\""]))
    | ⟨_, p⟩ :: _ => .error ⟨p, [intAlt]⟩
    | [] => .error (eofErr orig [intAlt])
  | _, ⟨_, p⟩ :: _, _ => .error ⟨p, afterRootAlts⟩
  | _, [], _ => .error (eofErr orig afterRootAlts)

/-- Parser mode inside a dims list: expecting a dimension (`first` selects the
alternatives shown, since "]" is only acceptable before any dimension), or
expecting a separator after a complete dimension. -/
inductive DMode where
  | dim (first : Bool)
  | sep (alts : List String)

/-- Reads the dims list after the opening "[", returning the dims and the
tokens after the closing "]". -/
def dimsGo (orig : List Char) : Nat → DMode → List PTok → List DimSpec →
    Except PErr (List DimSpec × List PTok)
  | 0, m, _, _ =>
    .error (eofErr orig (match m with
      | .dim true => dimStartAlts
      | .dim false => dimAfterCommaAlts
      | .sep alts => alts))
  | fuel + 1, .dim first, toks, acc =>
    match toks with
    | ⟨.sym "]", _⟩ :: rest =>
      if first then .ok (acc, rest)
      else .error ⟨(match toks with
        | t :: _ => t.pos
        | [] => 0), dimAfterCommaAlts⟩
    | ⟨.int v, _⟩ :: rest => dimsGo orig fuel (.sep afterDimAlts) rest (acc ++ [.constant v])
    | ⟨.name "None", _⟩ :: rest => dimsGo orig fuel (.sep afterDimAlts) rest (acc ++ [.anonymous])
    | ⟨.name v, _⟩ :: ⟨.sym "...", _⟩ :: rest =>
      dimsGo orig fuel (.sep afterDimAlts) rest (acc ++ [.varrankNamed v])
    | ⟨.name v, _⟩ :: rest => dimsGo orig fuel (.sep afterNamedDimAlts) rest (acc ++ [.named v])
    | ⟨.sym ".", _⟩ :: rest => dimsGo orig fuel (.sep afterDimAlts) rest (acc ++ [.anonymous])
    | ⟨.sym "...", _⟩ :: rest =>
      dimsGo orig fuel (.sep afterDimAlts) rest (acc ++ [.varrankAnonymous])
    | ⟨.sym "*", _⟩ :: ⟨.name v, _⟩ :: rest =>
      dimsGo orig fuel (.sep afterDimAlts) rest (acc ++ [.varrankNamed v])
    | ⟨.sym "*", _⟩ :: rest =>
      dimsGo orig fuel (.sep afterDimAlts) rest (acc ++ [.varrankAnonymous])
    | ⟨_, p⟩ :: _ => .error ⟨p, if first then dimStartAlts else dimAfterCommaAlts⟩
    | [] => .error (eofErr orig (if first then dimStartAlts else dimAfterCommaAlts))
  | fuel + 1, .sep alts, toks, acc =>
    match toks with
    | ⟨.sym ",", _⟩ :: rest => dimsGo orig fuel (.dim false) rest acc
    | ⟨.sym "]", _⟩ :: rest => .ok (acc, rest)
    | ⟨_, p⟩ :: _ => .error ⟨p, alts⟩
    | [] => .error (eofErr orig alts)

/-- Parses one declaration from its token list. -/
def parseDecl (orig : List Char) (toks : List PTok) : Except PErr LineResult :=
  match toks with
  | [] => .error (eofErr orig lineStartAlts)
  | ⟨.note t, _⟩ :: _ => .ok (.free t)
  | ⟨.name root, _⟩ :: rest =>
    (match refLoop orig (rest.length + 1) rest [] with
    | .error e => .error e
    | .ok (steps, rest2) =>
      match rest2 with
      | ⟨.sym "[", _⟩ :: rest3 =>
        (match dimsGo orig (2 * rest3.length + 2) (.dim true) rest3 [] with
        | .error e => .error e
        | .ok (dims, rest4) =>
          match rest4 with
          | [] => .ok (.arg ⟨⟨root, steps⟩, dims, none⟩)
          | ⟨.note t, _⟩ :: _ => .ok (.arg ⟨⟨root, steps⟩, dims, some t⟩)
          | ⟨_, p⟩ :: _ => .error ⟨p, ["\"#\""]⟩)
      | ⟨_, p⟩ :: _ => .error ⟨p, ["\"[\""]⟩
      | [] => .error (eofErr orig ["\"[\""]))
  | ⟨_, p⟩ :: _ => .error ⟨p, lineStartAlts⟩

/-- Modelled from the spec: a second variable-rank dimension in one dims list
is a parse error (`SpecificationParseError`); the repository module raising it
is not part of this snapshot, so the message body follows the words of the spec. -/
def multiVarrankMsg (ctx : String) (argIdx : Nat) : String :=
  "\nUnable to parse shape specification.\n  check_shapes called at: " ++ ctx ++
  "\n    Argument number (0-indexed): " ++ Nat.repr argIdx ++
  "\n      At most one variable-rank dimension is allowed.\n"

/-- Modelled from the spec: two declarations for the same argument reference
are rejected with an error naming both conflicting positions. -/
def dupRefMsg (ctx : String) (i j : Nat) (r : ArgumentRef) : String :=
  "\nDuplicate argument reference " ++ displayRef r ++
  " at argument numbers (0-indexed) " ++ Nat.repr i ++ " and " ++ Nat.repr j ++
  ".\n  check_shapes called at: " ++ ctx ++ "\n"

/-- Parses one declaration string, rendering failures into messages and
enforcing the at-most-one-variable-rank rule. -/
def parseLine (ctx : String) (argIdx : Nat) (s : String) : Except String LineResult :=
  match parseDecl s.toList (tokenize s.toList) with
  | .error e => .error (renderErr ctx argIdx s.toList e)
  | .ok (.arg a) =>
    if countVarrank a.dims ≤ 1 then .ok (.arg a)
    else .error (multiVarrankMsg ctx argIdx)
  | .ok r => .ok r

/-- Aggregation loop over all declaration strings. The accumulated argument
specs carry their 0-indexed positions for duplicate reporting. -/
def specGo (ctx : String) : List String → Nat → List (Nat × ParsedArgumentSpec) →
    List String → Except String ParsedFunctionSpec
  | [], _, args, notes => .ok ⟨args.map (·.2), notes⟩
  | s :: rest, i, args, notes =>
    match parseLine ctx i s with
    | .error m => .error m
    | .ok (.free t) => specGo ctx rest (i + 1) args (notes ++ [t])
    | .ok (.arg a) =>
      match args.find? (fun b => b.2.ref == a.ref) with
      | some b => .error (dupRefMsg ctx b.1 i a.ref)
      | none => specGo ctx rest (i + 1) (args ++ [(i, a)]) notes

/-- Parses the full multi-line specification of a function: one string per
declaration, plus free-floating note strings. -/
def parseFunctionSpec (lines : List String) (ctx : String) :
    Except String ParsedFunctionSpec :=
  specGo ctx lines 0 [] []

/-- The `check_shapes` entry point parses each decorator argument as one
declaration; a single declaration string is argument number 0. -/
def checkShapesParse (s : String) (ctx : String) : Except String ParsedFunctionSpec :=
  parseFunctionSpec [s] ctx

/-! ## Runtime shape checking

Modelled from the spec: the binding environment maps a dimension variable to
a single integer (`Named`) or to a tuple of integers (`VarrankNamed`); the
declared dimensions are unified against the actual shape left to right, with
the dimensions after a variable-rank dimension matched from the right; any
mismatch fails with a `ShapeMismatchError` naming the offending reference,
the declared spec and the actual shape; checking is fail-fast in declaration
order. -/

/-- A value bound to a dimension variable. -/
inductive BoundVal where
  | single (n : Nat)
  | tup (ns : List Nat)
  deriving DecidableEq, Repr

/-- The per-call binding environment. -/
abbrev Bindings := List (String × BoundVal)

def lookupVar (v : String) (b : Bindings) : Option BoundVal :=
  (b.find? (fun p => p.1 == v)).map (·.2)

/-- Unifies one fixed-rank dimension against one actual dimension. -/
def unifyFixed (b : Bindings) (d : DimSpec) (n : Nat) : Option Bindings :=
  match d with
  | .constant c => if c = n then some b else none
  | .named v =>
    (match lookupVar v b with
    | some (.single m) => if m = n then some b else none
    | some (.tup _) => none
    | none => some (b ++ [(v, .single n)]))
  | .anonymous => some b
  | _ => none

/-- Unifies a run of fixed-rank dimensions against actual dimensions,
pairwise and fail-fast. -/
def unifyFixedList (b : Bindings) : List DimSpec → List Nat → Option Bindings
  | [], [] => some b
  | d :: ds, n :: ns =>
    (match unifyFixed b d n with
    | some b2 => unifyFixedList b2 ds ns
    | none => none)
  | _, _ => none

/-- Position of the first variable-rank dimension, with the fixed dimensions
before and after it. -/
def splitVarrank (dims : List DimSpec) : Option (List DimSpec × DimSpec × List DimSpec) :=
  match dims with
  | [] => none
  | d :: rest =>
    if isVarrank d then some ([], d, rest)
    else
      (splitVarrank rest).map (fun r => (d :: r.1, r.2.1, r.2.2))

/-- Unifies one declared shape against one actual shape under the current
bindings, returning the extended bindings or `none` on any mismatch. -/
def checkShape (b : Bindings) (dims : List DimSpec) (actual : List Nat) : Option Bindings :=
  match splitVarrank dims with
  | none =>
    if dims.length = actual.length then unifyFixedList b dims actual else none
  | some (pre, vr, post) =>
    if pre.length + post.length ≤ actual.length then
      let mid := (actual.drop pre.length).take (actual.length - pre.length - post.length)
      (match unifyFixedList b pre (actual.take pre.length) with
      | none => none
      | some b1 =>
        (match
          (match vr with
          | .varrankNamed v =>
            (match lookupVar v b1 with
            | some (.tup t) => if t = mid then some b1 else none
            | some (.single _) => none
            | none => some (b1 ++ [(v, .tup mid)]))
          | _ => some b1) with
        | none => none
        | some b2 => unifyFixedList b2 post (actual.drop (actual.length - post.length))))
    else none

/-- Call-time check failure. -/
inductive CheckErr where
  | shapeMismatch (ref : ArgumentRef) (dims : List DimSpec) (actual : List Nat)
  deriving DecidableEq, Repr

/-- Checks the declared specs against actual shapes in declaration order,
fail-fast, threading the binding environment. -/
def checkArgs (b : Bindings) :
    List (ArgumentRef × List DimSpec × List Nat) → Except CheckErr Bindings
  | [] => .ok b
  | (r, dims, actual) :: rest =>
    match checkShape b dims actual with
    | some b2 => checkArgs b2 rest
    | none => .error (.shapeMismatch r dims actual)

/-! ## Docstring rewriting

Modelled from the spec: the rewriter locates `:param <name>:` / `:returns:`
fields of a reStructuredText-style docstring, splices a bullet per matching
declaration as the first content of the section, relocates an inline
description below the bullets after one blank line, inserts free-floating
notes after the leading summary, and preserves all untouched text and
indentation exactly. Validated against the expected docstrings of the
test corpus of the repository below. -/

/-- A line consisting only of whitespace (or nothing). -/
def isBlankS (s : String) : Bool := s.toList.all isWS

/-- Width of the leading run of spaces of a line. -/
def indentOf (s : String) : Nat := (s.toList.takeWhile (fun c => c == ' ')).length

/-- Docstring indentation, detected as the smallest indentation of a
non-blank line after the first (0 if there is none). -/
def guessIndent (lines : List String) : Nat :=
  match ((lines.drop 1).filter (fun l => !(isBlankS l))).map indentOf with
  | [] => 0
  | c :: cs => cs.foldl Nat.min c

/-- Strips leading and trailing whitespace. -/
def trimC (l : List Char) : List Char :=
  ((l.dropWhile isWS).reverse.dropWhile isWS).reverse

/-- The structured field a docstring line introduces, if any. -/
inductive FieldKind where
  | param (name : String)
  | returns
  | other
  deriving DecidableEq, Repr

/-- Recognizes a structured field line `:<field>: <inline>`, returning the
field kind, the text of the line through the closing colon, and the inline text. -/
def fieldOf (l : String) : Option (FieldKind × String × String) :=
  let cs := l.toList
  let ind := cs.takeWhile (fun c => c == ' ')
  match cs.dropWhile (fun c => c == ' ') with
  | ':' :: r =>
    let nameCs := r.takeWhile (fun c => c != ':')
    (match r.dropWhile (fun c => c != ':') with
    | ':' :: tail =>
      let head := String.mk (ind ++ ':' :: (nameCs ++ [':']))
      let inline := String.mk (trimC tail)
      let kind :=
        if String.mk nameCs = "returns" then FieldKind.returns
        else if nameCs.take 6 = "param ".toList then
          FieldKind.param (String.mk (nameCs.drop 6))
        else FieldKind.other
      some (kind, head, inline)
    | _ => none)
  | _ => none

/-- True for lines that start a structured field. -/
def isField (l : String) : Bool := (fieldOf l).isSome

/-- The generated bullet for one declaration, at the given indentation. -/
def bulletLine (w : String) (a : ParsedArgumentSpec) : String :=
  w ++ "* **" ++ displayRef a.ref ++ "** has shape [" ++ displayDims a.dims ++ "]." ++
    (match a.note with
    | some t => " " ++ t
    | none => "")

/-- Inserts the free-floating notes after the last non-blank line of the text
preceding the first structured field, each preceded by a blank line. -/
def insertNotes (w : String) (notes : List String) (pre : List String) : List String :=
  if notes.isEmpty then pre
  else
    let revPre := pre.reverse
    (revPre.dropWhile isBlankS).reverse ++
      (notes.map (fun n => ["", w ++ n])).flatten ++
      (revPre.takeWhile isBlankS).reverse

/-- Rewrites the structured-field region of the docstring, block by block.
A block is a field line plus the lines up to the next field line. -/
def rewriteBlocks (spec : ParsedFunctionSpec) (base : Nat) :
    Nat → List String → List String
  | 0, ls => ls
  | _ + 1, [] => []
  | fuel + 1, l :: rest =>
    let tail := rest.takeWhile (fun x => !(isField x))
    let rest2 := rest.dropWhile (fun x => !(isField x))
    let newBlock :=
      match fieldOf l with
      | none => l :: tail
      | some (kind, head, inline) =>
        let hits :=
          match kind with
          | .param nm => spec.args.filter (fun (a : ParsedArgumentSpec) => a.ref.root == nm)
          | .returns => spec.args.filter (fun (a : ParsedArgumentSpec) => a.ref.root == "return")
          | .other => []
        if hits.isEmpty then l :: tail
        else if inline ≠ "" then
          let w := String.mk (spacesC (base + 4))
          [head] ++ hits.map (bulletLine w) ++ ["", w ++ inline] ++ tail
        else
          match tail.find? (fun x => !(isBlankS x)) with
          | some fl =>
            let w := String.mk (spacesC (indentOf fl))
            [head] ++ hits.map (bulletLine w) ++ [""] ++ tail
          | none =>
            let w := String.mk (spacesC (base + 4))
            [head] ++ hits.map (bulletLine w) ++ [""] ++ tail
    newBlock ++ rewriteBlocks spec base fuel rest2

/-- Rewrites one docstring against one function specification. -/
def rewriteDocstring (spec : ParsedFunctionSpec) (doc : String) : String :=
  let lines := (splitLinesC doc.toList).map String.mk
  let base := guessIndent lines
  let pre := lines.takeWhile (fun l => !(isField l))
  let rest := lines.dropWhile (fun l => !(isField l))
  match rest with
  | [] => doc
  | _ =>
    let pre2 := insertNotes (String.mk (spacesC base)) spec.notes pre
    String.intercalate "\n" (pre2 ++ rewriteBlocks spec base (rest.length + 1) rest)

/-- Modelled from the spec: the entry point reads the process-wide
rewrite-docstrings toggle (here the `rewriteEnabled` argument; the external
`set_rewrite_docstrings(None)` corresponds to `false`); when the toggle is
disabled or the original docstring is absent, the original docstring is
returned unchanged. -/
def parseAndRewriteDocstring (rewriteEnabled : Bool) (doc : Option String)
    (spec : ParsedFunctionSpec) : Option String :=
  if rewriteEnabled then doc.map (rewriteDocstring spec) else doc


/-! ## Refinement companion: the `dim` grammar production of the spec document

This definition follows the words of the SPEC
(`dim := integer | identifier | "None" | "." | "*" | "..." | identifier "..."`)
rather than the code, for comparison with the behaviour of the parser above. -/

/-- True iff `s` is derivable from the `dim` production of the spec document. -/
def specGrammarDim (s : String) : Bool :=
  let cs := s.toList
  (!cs.isEmpty && cs.all (fun c => c.isDigit)) ||
  validIdentB s ||
  s == "None" || s == "." || s == "*" || s == "..." ||
  (cs.length ≥ 4 && decide (cs.drop (cs.length - 3) = ['.', '.', '.']) &&
    validIdentB (String.mk (cs.take (cs.length - 3))))

/-! ## The test corpus, transcribed verbatim

The following definitions transcribe, byte for byte, the declaration strings,
docstrings, expected rewritten docstrings and expected error messages of
`tests/gpflow/experimental/check_shapes/test_parser.py`. The placeholder
context below stands for the caller "path:line" marker, exactly as the test
corpus writes it before substitution. -/

def testCtx : String := "__check_shapes_path_and_line__"

/-! Transcribed from the test corpus: constant_dimensions -/
def specStrs_constant_dimensions : List String := ["a: [2, 3]", "b: [2, 4]", "return: [3, 4]"]
def doc_constant_dimensions : String := "\n        :param a: Parameter a.\n        :param b: Parameter b.\n        :returns: Return value.\n        "
def docExp_constant_dimensions : String := "\n        :param a:\n            * **a** has shape [2, 3].\n\n            Parameter a.\n        :param b:\n            * **b** has shape [2, 4].\n\n            Parameter b.\n        :returns:\n            * **return** has shape [3, 4].\n\n            Return value.\n        "

/-! Transcribed from the test corpus: variable_dimensions -/
def specStrs_variable_dimensions : List String := ["a: [d1, d2]", "b: [d1, d3]", "return: [d2, d3]"]
def doc_variable_dimensions : String := "\n        :param a: Parameter a.\n        :param b: Parameter b.\n        :returns: Return value.\n        "
def docExp_variable_dimensions : String := "\n        :param a:\n            * **a** has shape [*d1*, *d2*].\n\n            Parameter a.\n        :param b:\n            * **b** has shape [*d1*, *d3*].\n\n            Parameter b.\n        :returns:\n            * **return** has shape [*d2*, *d3*].\n\n            Return value.\n        "

/-! Transcribed from the test corpus: variable_rank -/
def specStrs_variable_rank : List String := ["a: [*ds]", "b: [ds..., d1]", "c: [d1, ds..., d2]", "d: [d1, ds...]", "return: [*ds, d1, d2]"]
def doc_variable_rank : String := "\n        :param a: Parameter a.\n        :param b: Parameter b.\n        :param c: Parameter c.\n        :param d: Parameter d.\n        :returns: Return value.\n        "
def docExp_variable_rank : String := "\n        :param a:\n            * **a** has shape [*ds*...].\n\n            Parameter a.\n        :param b:\n            * **b** has shape [*ds*..., *d1*].\n\n            Parameter b.\n        :param c:\n            * **c** has shape [*d1*, *ds*..., *d2*].\n\n            Parameter c.\n        :param d:\n            * **d** has shape [*d1*, *ds*...].\n\n            Parameter d.\n        :returns:\n            * **return** has shape [*ds*..., *d1*, *d2*].\n\n            Return value.\n        "

/-! Transcribed from the test corpus: anonymous -/
def specStrs_anonymous : List String := ["a: [., d1]", "b: [None, d2]", "c: [..., d1]", "d: [*, d2]", "return: [..., d1, d2]"]
def doc_anonymous : String := "\n        :param a: Parameter a.\n        :param b: Parameter b.\n        :param c: Parameter c.\n        :param d: Parameter d.\n        :returns: Return value.\n        "
def docExp_anonymous : String := "\n        :param a:\n            * **a** has shape [., *d1*].\n\n            Parameter a.\n        :param b:\n            * **b** has shape [., *d2*].\n\n            Parameter b.\n        :param c:\n            * **c** has shape [..., *d1*].\n\n            Parameter c.\n        :param d:\n            * **d** has shape [..., *d2*].\n\n            Parameter d.\n        :returns:\n            * **return** has shape [..., *d1*, *d2*].\n\n            Return value.\n        "

/-! Transcribed from the test corpus: scalars -/
def specStrs_scalars : List String := ["a: []", "b: []", "return: []"]
def doc_scalars : String := "\n        :param a: Parameter a.\n        :param b: Parameter b.\n        :returns: Return value.\n        "
def docExp_scalars : String := "\n        :param a:\n            * **a** has shape [].\n\n            Parameter a.\n        :param b:\n            * **b** has shape [].\n\n            Parameter b.\n        :returns:\n            * **return** has shape [].\n\n            Return value.\n        "

/-! Transcribed from the test corpus: argument_refs -/
def specStrs_argument_refs : List String := ["x.ins[0]: [a_batch..., 1]", "x.ins[1]: [b_batch..., 2]", "return[0].out: [a_batch..., 3]", "return[1].out: [b_batch..., 4]"]
def doc_argument_refs : String := "\n        :param x: Parameter x.\n        :returns: Return value.\n        "
def docExp_argument_refs : String := "\n        :param x:\n            * **x.ins[0]** has shape [*a_batch*..., 1].\n            * **x.ins[1]** has shape [*b_batch*..., 2].\n\n            Parameter x.\n        :returns:\n            * **return[0].out** has shape [*a_batch*..., 3].\n            * **return[1].out** has shape [*b_batch*..., 4].\n\n            Return value.\n        "

/-! Transcribed from the test corpus: notes -/
def specStrs_notes : List String := ["a: [d1, d2]", "# Some generic note.", "b: [d1, d3]  #   Some note \n on B. \n  ", "return: [d2, d3]#Some note on the result.", "# Some other\ngeneric note."]
def doc_notes : String := "\n        Some doctring.\n\n        :param a: Parameter a.\n        :param b: Parameter b.\n        :returns: Return value.\n        "
def docExp_notes : String := "\n        Some doctring.\n\n        Some generic note.\n\n        Some other generic note.\n\n        :param a:\n            * **a** has shape [*d1*, *d2*].\n\n            Parameter a.\n        :param b:\n            * **b** has shape [*d1*, *d3*]. Some note on B.\n\n            Parameter b.\n        :returns:\n            * **return** has shape [*d2*, *d3*]. Some note on the result.\n\n            Return value.\n        "

/-! Transcribed from the test corpus: no_docstring -/
def specStrs_no_docstring : List String := ["a: [d1, d2]", "b: [d1, d3]", "return: [d2, d3]"]

/-! Transcribed from the test corpus: partial_docstring -/
def specStrs_partial_docstring : List String := ["a: [d1, d2]", "b: [d1, d3]", "return: [d2, d3]"]
def doc_partial_docstring : String := "\n        :param b: Parameter b.\n        "
def docExp_partial_docstring : String := "\n        :param b:\n            * **b** has shape [*d1*, *d3*].\n\n            Parameter b.\n        "

/-! Transcribed from the test corpus: no_indent -/
def specStrs_no_indent : List String := ["a: [d1, d2]", "b: [d1, d3]", "return: [d2, d3]"]
def doc_no_indent : String := ":param b: Parameter b."
def docExp_no_indent : String := ":param b:\n    * **b** has shape [*d1*, *d3*].\n\n    Parameter b."

/-! Transcribed from the test corpus: other_info_fields -/
def specStrs_other_info_fields : List String := ["a: [batch..., n_features]", "return: [batch..., 1]"]
def doc_other_info_fields : String := "\n        This is a boring docstring.\n\n        :meta: Blah blah.\n        :param a: Some stuff about argument `a`.\n        :type a: TensorType\n        :meta: More chaff.\n        :returns: Some description of the return type.\n        :rtype: TensorType\n        "
def docExp_other_info_fields : String := "\n        This is a boring docstring.\n\n        :meta: Blah blah.\n        :param a:\n            * **a** has shape [*batch*..., *n_features*].\n\n            Some stuff about argument `a`.\n        :type a: TensorType\n        :meta: More chaff.\n        :returns:\n            * **return** has shape [*batch*..., 1].\n\n            Some description of the return type.\n        :rtype: TensorType\n        "

/-! Transcribed from the test corpus: other_colons -/
def specStrs_other_colons : List String := ["a: [batch..., n_features]", "return: [batch..., 1]"]
def doc_other_colons : String := "\n        This: is a docstring, :: with some extra :s in it.\n\n        Here: are: some more:.\n\n        :param a: Some stuff about: argument `a`.\n        :returns: Some description of the:: return type.\n        "
def docExp_other_colons : String := "\n        This: is a docstring, :: with some extra :s in it.\n\n        Here: are: some more:.\n\n        :param a:\n            * **a** has shape [*batch*..., *n_features*].\n\n            Some stuff about: argument `a`.\n        :returns:\n            * **return** has shape [*batch*..., 1].\n\n            Some description of the:: return type.\n        "

/-! Transcribed from the test corpus: funny_formatting_1 -/
def specStrs_funny_formatting_1 : List String := ["train.features: [train_batch..., n_features]", "train.labels: [train_batch..., n_labels]  # Label note.", "test_features: [test_batch..., n_features]", "return[0]: [test_batch..., n_labels]", "return[1]: [test_batch..., n_labels]", "# Function note."]
def doc_funny_formatting_1 : String := "\n        Predict mean and variance from some test features.\n\n        First trains a model an `train`, then makes a prediction from the model and `test`.\n\n        :param train:\n            Data to train on.\n\n        :param test_features:\n            Features to make test prediction from.\n\n        :returns:\n            Model mean and variance prediction.\n        "
def docExp_funny_formatting_1 : String := "\n        Predict mean and variance from some test features.\n\n        First trains a model an `train`, then makes a prediction from the model and `test`.\n\n        Function note.\n\n        :param train:\n            * **train.features** has shape [*train_batch*..., *n_features*].\n            * **train.labels** has shape [*train_batch*..., *n_labels*]. Label note.\n\n            Data to train on.\n\n        :param test_features:\n            * **test_features** has shape [*test_batch*..., *n_features*].\n\n            Features to make test prediction from.\n\n        :returns:\n            * **return[0]** has shape [*test_batch*..., *n_labels*].\n            * **return[1]** has shape [*test_batch*..., *n_labels*].\n\n            Model mean and variance prediction.\n        "

/-! Transcribed from the test corpus: funny_formatting_2 -/
def specStrs_funny_formatting_2 : List String := ["train.features: [train_batch..., n_features]", "train.labels: [train_batch..., n_labels]  # Label note.", "test_features: [test_batch..., n_features]", "return[0]: [test_batch..., n_labels]", "return[1]: [test_batch..., n_labels]", "# Function note."]
def doc_funny_formatting_2 : String := "\n        Predict mean and variance from some test features.\n        First trains a model an `train`, then makes a prediction from the model and `test`.\n        :param train: Data to train on.\n        :param test_features: Features to make test prediction from.\n        :returns: Model mean and variance prediction.\n        "
def docExp_funny_formatting_2 : String := "\n        Predict mean and variance from some test features.\n        First trains a model an `train`, then makes a prediction from the model and `test`.\n\n        Function note.\n        :param train:\n            * **train.features** has shape [*train_batch*..., *n_features*].\n            * **train.labels** has shape [*train_batch*..., *n_labels*]. Label note.\n\n            Data to train on.\n        :param test_features:\n            * **test_features** has shape [*test_batch*..., *n_features*].\n\n            Features to make test prediction from.\n        :returns:\n            * **return[0]** has shape [*test_batch*..., *n_labels*].\n            * **return[1]** has shape [*test_batch*..., *n_labels*].\n\n            Model mean and variance prediction.\n        "

/-! Transcribed from the test corpus: funny_formatting_3 -/
def specStrs_funny_formatting_3 : List String := ["train.features: [train_batch..., n_features]", "train.labels: [train_batch..., n_labels]  # Label note.", "test_features: [test_batch..., n_features]", "return[0]: [test_batch..., n_labels]", "return[1]: [test_batch..., n_labels]", "# Function note."]
def doc_funny_formatting_3 : String := "Predict mean and variance from some test features.\n\n        First trains a model an `train`, then makes a prediction from the model and `test`.\n        :param train:\n        Data to train on.\n        And another line.\n        :param test_features:\n        Features to make test prediction from.\n        And some more comment.\n        :returns:\n        Model mean and variance prediction."
def docExp_funny_formatting_3 : String := "Predict mean and variance from some test features.\n\n        First trains a model an `train`, then makes a prediction from the model and `test`.\n\n        Function note.\n        :param train:\n        * **train.features** has shape [*train_batch*..., *n_features*].\n        * **train.labels** has shape [*train_batch*..., *n_labels*]. Label note.\n\n        Data to train on.\n        And another line.\n        :param test_features:\n        * **test_features** has shape [*test_batch*..., *n_features*].\n\n        Features to make test prediction from.\n        And some more comment.\n        :returns:\n        * **return[0]** has shape [*test_batch*..., *n_labels*].\n        * **return[1]** has shape [*test_batch*..., *n_labels*].\n\n        Model mean and variance prediction."

/-! Transcribed from the test corpus: funny_formatting_4 -/
def specStrs_funny_formatting_4 : List String := ["train.features: [train_batch..., n_features]", "train.labels: [train_batch..., n_labels]  # Label note.", "test_features: [test_batch..., n_features]", "return[0]: [test_batch..., n_labels]", "return[1]: [test_batch..., n_labels]", "# Function note."]
def doc_funny_formatting_4 : String := "Predict mean and variance from some test features.\n\nFirst trains a model an `train`, then makes a prediction from the model and `test`.\n:param train:\nData to train on.\nAnd another line.\n:param test_features:\nFeatures to make test prediction from.\nAnd some more comment.\n:returns:\nModel mean and variance prediction."
def docExp_funny_formatting_4 : String := "Predict mean and variance from some test features.\n\nFirst trains a model an `train`, then makes a prediction from the model and `test`.\n\nFunction note.\n:param train:\n* **train.features** has shape [*train_batch*..., *n_features*].\n* **train.labels** has shape [*train_batch*..., *n_labels*]. Label note.\n\nData to train on.\nAnd another line.\n:param test_features:\n* **test_features** has shape [*test_batch*..., *n_features*].\n\nFeatures to make test prediction from.\nAnd some more comment.\n:returns:\n* **return[0]** has shape [*test_batch*..., *n_labels*].\n* **return[1]** has shape [*test_batch*..., *n_labels*].\n\nModel mean and variance prediction."

def errSpec_1 : String := "a [batch..., x]"
def errMsg_1 : String := "\nUnable to parse shape specification.\n  check_shapes called at: __check_shapes_path_and_line__\n    Argument number (0-indexed): 0\n      Line:     \"a [batch..., x]\"\n                    ^\n      Expected: integer (re=(?:[0-9])+)\n"

def errSpec_2 : String := "a= [batch..., x]"
def errMsg_2 : String := "\nUnable to parse shape specification.\n  check_shapes called at: __check_shapes_path_and_line__\n    Argument number (0-indexed): 0\n      Line:            \"a= [batch..., x]\"\n                         ^\n      Expected one of: \":\"\n                       \".\"\n                       \"[\"\n"

def errSpec_3 : String := "a: (batch..., x)"
def errMsg_3 : String := "\nUnable to parse shape specification.\n  check_shapes called at: __check_shapes_path_and_line__\n    Argument number (0-indexed): 0\n      Line:     \"a: (batch..., x)\"\n                    ^\n      Expected: \"[\"\n"

def errSpec_4 : String := "a: batch..., x]"
def errMsg_4 : String := "\nUnable to parse shape specification.\n  check_shapes called at: __check_shapes_path_and_line__\n    Argument number (0-indexed): 0\n      Line:     \"a: batch..., x]\"\n                    ^\n      Expected: \"[\"\n"

def errSpec_5 : String := "a: [batch... x]"
def errMsg_5 : String := "\nUnable to parse shape specification.\n  check_shapes called at: __check_shapes_path_and_line__\n    Argument number (0-indexed): 0\n      Line:            \"a: [batch... x]\"\n                                     ^\n      Expected one of: \",\"\n                       \"]\"\n"

def errSpec_6 : String := "a: [batch..., x"
def errMsg_6 : String := "\nUnable to parse shape specification.\n  check_shapes called at: __check_shapes_path_and_line__\n    Argument number (0-indexed): 0\n      Line:            \"a: [batch..., x\"\n                                      ^\n      Expected one of: \",\"\n                       \"...\"\n                       \"]\"\n"

def errSpec_7 : String := "a: [, x]"
def errMsg_7 : String := "\nUnable to parse shape specification.\n  check_shapes called at: __check_shapes_path_and_line__\n    Argument number (0-indexed): 0\n      Line:            \"a: [, x]\"\n                            ^\n      Expected one of: variable name (re=(?:(?:[A-Z]|[a-z])|_)(?:(?:(?:[A-Z]|[a-z])|[0-9]|_))*)\n                       \".\"\n                       \"...\"\n                       integer (re=(?:[0-9])+)\n                       \"None\"\n                       \"]\"\n                       \"*\"\n"

def errSpec_8 : String := ""
def errMsg_8 : String := "\nUnable to parse shape specification.\n  check_shapes called at: __check_shapes_path_and_line__\n    Argument number (0-indexed): 0\n      Line:            \"\"\n                        ^\n      Expected one of: variable name (re=(?:(?:[A-Z]|[a-z])|_)(?:(?:(?:[A-Z]|[a-z])|[0-9]|_))*)\n                       \"#\"\n"

def errSpec_9 : String := "\n  a:\n  [\n    batch...\n    x\n  ]"
def errMsg_9 : String := "\nUnable to parse shape specification.\n  check_shapes called at: __check_shapes_path_and_line__\n    Argument number (0-indexed): 0\n      Line:            \"    x\"\n                            ^\n      Expected one of: \",\"\n                       \"]\"\n"

/-! ## Validation of the model against the corpus

Each theorem below checks that the modelled parser/rewriter reproduces one
corpus expectation exactly. -/

theorem corpus_error_1 : checkShapesParse errSpec_1 testCtx = .error errMsg_1 := by rfl

theorem corpus_error_2 : checkShapesParse errSpec_2 testCtx = .error errMsg_2 := by rfl

theorem corpus_error_3 : checkShapesParse errSpec_3 testCtx = .error errMsg_3 := by rfl

theorem corpus_error_4 : checkShapesParse errSpec_4 testCtx = .error errMsg_4 := by rfl

theorem corpus_error_5 : checkShapesParse errSpec_5 testCtx = .error errMsg_5 := by rfl

theorem corpus_error_6 : checkShapesParse errSpec_6 testCtx = .error errMsg_6 := by rfl

theorem corpus_error_7 : checkShapesParse errSpec_7 testCtx = .error errMsg_7 := by rfl

theorem corpus_error_8 : checkShapesParse errSpec_8 testCtx = .error errMsg_8 := by rfl

theorem corpus_error_9 : checkShapesParse errSpec_9 testCtx = .error errMsg_9 := by rfl

/-- Parse-then-rewrite of one corpus case, as the corpus tests run it. -/
def corpusRun (specs : List String) (doc : String) : Except String (Option String) :=
  (parseFunctionSpec specs testCtx).map
    (fun spec => parseAndRewriteDocstring true (some doc) spec)

theorem corpus_rewrite_constant_dimensions :
    corpusRun specStrs_constant_dimensions doc_constant_dimensions = .ok (some docExp_constant_dimensions) := by rfl

theorem corpus_rewrite_variable_dimensions :
    corpusRun specStrs_variable_dimensions doc_variable_dimensions = .ok (some docExp_variable_dimensions) := by rfl

theorem corpus_rewrite_variable_rank :
    corpusRun specStrs_variable_rank doc_variable_rank = .ok (some docExp_variable_rank) := by rfl

theorem corpus_rewrite_anonymous :
    corpusRun specStrs_anonymous doc_anonymous = .ok (some docExp_anonymous) := by rfl

theorem corpus_rewrite_scalars :
    corpusRun specStrs_scalars doc_scalars = .ok (some docExp_scalars) := by rfl

theorem corpus_rewrite_argument_refs :
    corpusRun specStrs_argument_refs doc_argument_refs = .ok (some docExp_argument_refs) := by rfl

theorem corpus_rewrite_notes :
    corpusRun specStrs_notes doc_notes = .ok (some docExp_notes) := by rfl

theorem corpus_rewrite_partial_docstring :
    corpusRun specStrs_partial_docstring doc_partial_docstring = .ok (some docExp_partial_docstring) := by rfl

theorem corpus_rewrite_no_indent :
    corpusRun specStrs_no_indent doc_no_indent = .ok (some docExp_no_indent) := by rfl

theorem corpus_rewrite_other_info_fields :
    corpusRun specStrs_other_info_fields doc_other_info_fields = .ok (some docExp_other_info_fields) := by rfl

theorem corpus_rewrite_other_colons :
    corpusRun specStrs_other_colons doc_other_colons = .ok (some docExp_other_colons) := by rfl

theorem corpus_rewrite_funny_formatting_1 :
    corpusRun specStrs_funny_formatting_1 doc_funny_formatting_1 = .ok (some docExp_funny_formatting_1) := by rfl

theorem corpus_rewrite_funny_formatting_2 :
    corpusRun specStrs_funny_formatting_2 doc_funny_formatting_2 = .ok (some docExp_funny_formatting_2) := by rfl

theorem corpus_rewrite_funny_formatting_3 :
    corpusRun specStrs_funny_formatting_3 doc_funny_formatting_3 = .ok (some docExp_funny_formatting_3) := by rfl

theorem corpus_rewrite_funny_formatting_4 :
    corpusRun specStrs_funny_formatting_4 doc_funny_formatting_4 = .ok (some docExp_funny_formatting_4) := by rfl

/-! ## Claim-level definitions -/

/-- Physical lines of a string. -/
def docLines (s : String) : List String := (splitLinesC s.toList).map String.mk

/-- True iff a parse ended in an error. -/
def isErr (e : Except String ParsedFunctionSpec) : Bool :=
  match e with
  | .error _ => true
  | .ok _ => false

/-- The parsed `constant_dimensions` specification
(`a: [2, 3]`, `b: [2, 4]`, `return: [3, 4]`). -/
def specCd : ParsedFunctionSpec :=
  ⟨[⟨⟨"a", []⟩, [.constant 2, .constant 3], none⟩,
    ⟨⟨"b", []⟩, [.constant 2, .constant 4], none⟩,
    ⟨⟨"return", []⟩, [.constant 3, .constant 4], none⟩],
   []⟩

/-- The parsed `notes` specification. -/
def specNotes : ParsedFunctionSpec :=
  ⟨[⟨⟨"a", []⟩, [.named "d1", .named "d2"], none⟩,
    ⟨⟨"b", []⟩, [.named "d1", .named "d3"], some "Some note on B."⟩,
    ⟨⟨"return", []⟩, [.named "d2", .named "d3"], some "Some note on the result."⟩],
   ["Some generic note.", "Some other generic note."]⟩

/-- The parsed `funny_formatting` specification. -/
def specFF : ParsedFunctionSpec :=
  ⟨[⟨⟨"train", [.attr "features"]⟩, [.varrankNamed "train_batch", .named "n_features"], none⟩,
    ⟨⟨"train", [.attr "labels"]⟩, [.varrankNamed "train_batch", .named "n_labels"],
      some "Label note."⟩,
    ⟨⟨"test_features", []⟩, [.varrankNamed "test_batch", .named "n_features"], none⟩,
    ⟨⟨"return", [.idx 0]⟩, [.varrankNamed "test_batch", .named "n_labels"], none⟩,
    ⟨⟨"return", [.idx 1]⟩, [.varrankNamed "test_batch", .named "n_labels"], none⟩],
   ["Function note."]⟩

theorem specNotes_parses : parseFunctionSpec specStrs_notes testCtx = .ok specNotes := by rfl

theorem specFF_parses : parseFunctionSpec specStrs_funny_formatting_2 testCtx = .ok specFF := by
  rfl

/-! ## Claims -/

/-- C1: for the spec `a: [2, 3]`, `b: [2, 4]`, `return: [3, 4]` and the
docstring with `:param a: Parameter a.` / `:param b:` / `:returns:` fields,
the rewriter inserts, as the first content of each matching section and in
declaration order, exactly one bullet `* **<ref>** has shape [<dims>].`
(e.g. `* **a** has shape [2, 3].`), with the pre-existing description
preserved after the bullet, separated by one blank line. The third conjunct
spells the rewritten docstring out line by line. -/
theorem C1_constant_dimensions_rewrite :
    parseFunctionSpec specStrs_constant_dimensions testCtx = .ok specCd ∧
    parseAndRewriteDocstring true (some doc_constant_dimensions) specCd
      = some docExp_constant_dimensions ∧
    docLines docExp_constant_dimensions =
      ["",
       "        :param a:",
       "            * **a** has shape [2, 3].",
       "",
       "            Parameter a.",
       "        :param b:",
       "            * **b** has shape [2, 4].",
       "",
       "            Parameter b.",
       "        :returns:",
       "            * **return** has shape [3, 4].",
       "",
       "            Return value.",
       "        "] :=
  ⟨by rfl, by rfl, by rfl⟩

/-- C2: for the spec `a: [*ds]`, `b: [ds..., d1]`, checking `a` of shape
(2, 3) then `b` of shape (2, 3, 7) succeeds and binds `ds` to (2, 3) and `d1`
to 7; with `b` of shape (9, 7) instead, checking fails with a
`ShapeMismatchError` for `b`, because the bound tuple (2, 3) disagrees with
the middle segment (9,) demanded by `b`. -/
theorem C2_varrank_binding_consistency :
    parseFunctionSpec ["a: [*ds]", "b: [ds..., d1]"] testCtx
      = .ok ⟨[⟨⟨"a", []⟩, [.varrankNamed "ds"], none⟩,
              ⟨⟨"b", []⟩, [.varrankNamed "ds", .named "d1"], none⟩], []⟩ ∧
    checkArgs [] [(⟨"a", []⟩, [.varrankNamed "ds"], [2, 3]),
                  (⟨"b", []⟩, [.varrankNamed "ds", .named "d1"], [2, 3, 7])]
      = .ok [("ds", .tup [2, 3]), ("d1", .single 7)] ∧
    checkArgs [] [(⟨"a", []⟩, [.varrankNamed "ds"], [2, 3]),
                  (⟨"b", []⟩, [.varrankNamed "ds", .named "d1"], [9, 7])]
      = .error (.shapeMismatch ⟨"b", []⟩ [.varrankNamed "ds", .named "d1"] [9, 7]) ∧
    checkShape [("ds", .tup [2, 3])] [.varrankNamed "ds", .named "d1"] [9, 7] = none :=
  ⟨by rfl, by rfl, by rfl, by rfl⟩

/-- C4: with the rewrite toggle disabled, rewriting returns the original
docstring unchanged for every spec and every docstring including `none`; and
an absent docstring is returned unchanged (as `none`) regardless of the
toggle — a pure pass-through in both cases. -/
theorem C4_rewrite_passthrough :
    (∀ (doc : Option String) (spec : ParsedFunctionSpec),
      parseAndRewriteDocstring false doc spec = doc) ∧
    (∀ (enabled : Bool) (spec : ParsedFunctionSpec),
      parseAndRewriteDocstring enabled none spec = none) :=
  ⟨fun _ _ => rfl, fun enabled _ => by cases enabled <;> rfl⟩

/-- C10: `*` immediately followed by an identifier parses as `VarrankNamed`
of that identifier, so `a: [*ds]` and `b: [ds..., d1]` share the variable
`ds`; a bare `*` parses as `VarrankAnonymous`, identical to `...`; and the
`*identifier` form is not derivable from the `dim` grammar
production of the spec document, while both `ds...` and `*` are. -/
theorem C10_star_identifier_varrank :
    parseFunctionSpec ["a: [*ds]"] testCtx
      = .ok ⟨[⟨⟨"a", []⟩, [.varrankNamed "ds"], none⟩], []⟩ ∧
    parseFunctionSpec ["b: [ds..., d1]"] testCtx
      = .ok ⟨[⟨⟨"b", []⟩, [.varrankNamed "ds", .named "d1"], none⟩], []⟩ ∧
    parseFunctionSpec ["d: [*, d2]"] testCtx
      = .ok ⟨[⟨⟨"d", []⟩, [.varrankAnonymous, .named "d2"], none⟩], []⟩ ∧
    parseFunctionSpec ["c: [..., d1]"] testCtx
      = .ok ⟨[⟨⟨"c", []⟩, [.varrankAnonymous, .named "d1"], none⟩], []⟩ ∧
    specGrammarDim "*ds" = false ∧
    specGrammarDim "ds..." = true ∧
    specGrammarDim "*" = true :=
  ⟨by rfl, by rfl, by rfl, by rfl, by rfl, by rfl, by rfl⟩

/-- C3 counterexample: parsing `a [batch..., x]` does produce "Expected:
integer" as the only alternative, but the caret does not point at the space
after `a` (position 1): the failure position is 3, under the `b` of `batch`
(the token after the `[` that opened an index-step). The corpus message
`errMsg_1` places the caret in column 20 of the caret line; the quoted line
starts at column 17, so the caret is under in-line column 3, not column 1. -/
theorem C3_caret_position_counterexample :
    parseDecl errSpec_1.toList (tokenize errSpec_1.toList) = .error ⟨3, [intAlt]⟩ ∧
    errSpec_1.toList.getD 3 ' ' = 'b' ∧
    errSpec_1.toList.getD 1 'x' = ' ' ∧
    (3 : Nat) ≠ 1 ∧
    checkShapesParse errSpec_1 testCtx = .error errMsg_1 ∧
    docLines errMsg_1 =
      ["",
       "Unable to parse shape specification.",
       "  check_shapes called at: __check_shapes_path_and_line__",
       "    Argument number (0-indexed): 0",
       "      Line:     \"a [batch..., x]\"",
       "                    ^",
       "      Expected: integer (re=(?:[0-9])+)",
       ""] :=
  ⟨by rfl, by rfl, by rfl, by decide, by rfl, by rfl⟩

/-- C3 (amended): parsing `a [batch..., x]` (missing colon) raises a
`SpecificationParseError` whose message shows the failing line with a caret
pointing at the first character of the unexpected token `batch` (in-line
column 3, just after the `[` which the parser took as the start of an
index-step) and lists "Expected: integer" as the only alternative. -/
theorem C3_missing_colon_amended :
    checkShapesParse errSpec_1 testCtx = .error errMsg_1 ∧
    parseDecl errSpec_1.toList (tokenize errSpec_1.toList) = .error ⟨3, [intAlt]⟩ ∧
    colAt errSpec_1.toList 3 = 3 :=
  ⟨by rfl, by rfl, by rfl⟩

/-- C6: parsing `a: [, x]` lists, after "Expected one of:", each alternative
on its own line, literal tokens quoted and lexical classes with their
patterns, exactly in the order: variable name, ".", "...", integer, "None",
"]", "*". -/
theorem C6_alternatives_order :
    checkShapesParse errSpec_7 testCtx = .error errMsg_7 ∧
    parseDecl errSpec_7.toList (tokenize errSpec_7.toList) = .error ⟨4, dimStartAlts⟩ ∧
    dimStartAlts =
      [varNameAlt, "\".\"", "\"...\"", intAlt, "\"None\"", "\"]\"", "\"*\""] ∧
    varNameAlt =
      "variable name (re=(?:(?:[A-Z]|[a-z])|_)(?:(?:(?:[A-Z]|[a-z])|[0-9]|_))*)" ∧
    intAlt = "integer (re=(?:[0-9])+)" ∧
    docLines errMsg_7 =
      ["",
       "Unable to parse shape specification.",
       "  check_shapes called at: __check_shapes_path_and_line__",
       "    Argument number (0-indexed): 0",
       "      Line:            \"a: [, x]\"",
       "                            ^",
       "      Expected one of: variable name (re=(?:(?:[A-Z]|[a-z])|_)(?:(?:(?:[A-Z]|[a-z])|[0-9]|_))*)",
       "                       \".\"",
       "                       \"...\"",
       "                       integer (re=(?:[0-9])+)",
       "                       \"None\"",
       "                       \"]\"",
       "                       \"*\"",
       ""] :=
  ⟨by rfl, by rfl, by rfl, by rfl, by rfl, by rfl⟩

/-- C7 counterexample: an empty declaration line is not ignored: parsing the
single empty line raises a `SpecificationParseError` (the corpus message
expecting a variable name or "#"), contradicting the claim that a blank line
never causes one. -/
theorem C7_blank_line_counterexample :
    parseFunctionSpec [""] testCtx = .error errMsg_8 ∧
    isErr (parseFunctionSpec [""] testCtx) = true :=
  ⟨by rfl, by rfl⟩

/-- C7 (amended): empty and whitespace-only declaration lines are not
ignored — each raises a `SpecificationParseError` expecting a variable name
or "#" — while blank physical lines inside one multi-line declaration are
mere token-separating whitespace and are ignored. -/
theorem C7_blank_lines_amended :
    parseFunctionSpec [""] testCtx = .error errMsg_8 ∧
    isErr (parseFunctionSpec ["   "] testCtx) = true ∧
    parseFunctionSpec ["a:\n\n[x]"] testCtx
      = .ok ⟨[⟨⟨"a", []⟩, [.named "x"], none⟩], []⟩ :=
  ⟨by rfl, by rfl, by rfl⟩

theorem parseLine_arg_varrank (ctx : String) (i : Nat) (s : String) (a : ParsedArgumentSpec)
    (h : parseLine ctx i s = .ok (.arg a)) : countVarrank a.dims ≤ 1 := by
  unfold parseLine at h
  cases hdecl : parseDecl s.toList (tokenize s.toList) with
  | error e => rw [hdecl] at h; simp at h
  | ok r =>
    rw [hdecl] at h
    cases r with
    | free t => simp at h
    | arg a2 =>
      simp only at h
      by_cases hc : countVarrank a2.dims ≤ 1
      · rw [if_pos hc] at h
        simp only [Except.ok.injEq, LineResult.arg.injEq] at h
        rw [← h]
        exact hc
      · rw [if_neg hc] at h
        simp at h

theorem specGo_varrank (ctx : String) :
    ∀ (lines : List String) (i : Nat) (args : List (Nat × ParsedArgumentSpec))
      (notes : List String) (spec : ParsedFunctionSpec),
      (∀ p ∈ args, countVarrank p.2.dims ≤ 1) →
      specGo ctx lines i args notes = .ok spec →
      ∀ a ∈ spec.args, countVarrank a.dims ≤ 1 := by
  intro lines
  induction lines with
  | nil =>
    intro i args notes spec hargs h
    simp only [specGo, Except.ok.injEq] at h
    intro a ha
    rw [← h] at ha
    simp only [List.mem_map] at ha
    obtain ⟨p, hp, rfl⟩ := ha
    exact hargs p hp
  | cons s rest ih =>
    intro i args notes spec hargs h
    simp only [specGo] at h
    cases hline : parseLine ctx i s with
    | error m => rw [hline] at h; simp at h
    | ok r =>
      rw [hline] at h
      cases r with
      | free t =>
        exact ih (i + 1) args (notes ++ [t]) spec hargs h
      | arg a =>
        simp only at h
        cases hfind : args.find? (fun b => b.2.ref == a.ref) with
        | some b => rw [hfind] at h; simp at h
        | none =>
          rw [hfind] at h
          refine ih (i + 1) (args ++ [(i, a)]) notes spec ?_ h
          intro p hp
          rw [List.mem_append] at hp
          cases hp with
          | inl hp => exact hargs p hp
          | inr hp =>
            simp only [List.mem_singleton] at hp
            subst hp
            exact parseLine_arg_varrank ctx i s a hline

/-- C5: at most one variable-rank dimension may occur in one dims list; in
particular parsing `a: [x..., y..., z]` fails with a
`SpecificationParseError`, and every successfully parsed declaration has at
most one variable-rank dimension. -/
theorem C5_single_varrank :
    parseFunctionSpec ["a: [x..., y..., z]"] testCtx = .error (multiVarrankMsg testCtx 0) ∧
    ∀ (lines : List String) (ctx : String) (spec : ParsedFunctionSpec),
      parseFunctionSpec lines ctx = .ok spec →
      ∀ a ∈ spec.args, countVarrank a.dims ≤ 1 :=
  ⟨by rfl,
   fun lines ctx spec h =>
     specGo_varrank ctx lines 0 [] [] spec (by simp) h⟩

/-- C5 witness: the universally quantified part of `C5_single_varrank`
applied to the concrete specification `a: [2]`. -/
theorem C5_single_varrank_witness :
    countVarrank [DimSpec.constant 2] ≤ 1 :=
  C5_single_varrank.2 ["a: [2]"] testCtx ⟨[⟨⟨"a", []⟩, [.constant 2], none⟩], []⟩
    (by rfl) ⟨⟨"a", []⟩, [.constant 2], none⟩ (by simp)

/-- C8 counterexample: `x[00]` conforms to the `ref` grammar (its integer
token is `00`) and parses, but displaying the parse result yields `x[0]`,
not the original text — the string-level round-trip fails on non-canonical
integer literals. -/
theorem C8_roundtrip_counterexample :
    parseArgumentRef "x[00]" = some ⟨"x", [.idx 0]⟩ ∧
    (parseArgumentRef "x[00]").map displayRef = some "x[0]" ∧
    ("x[0]" : String) ≠ "x[00]" :=
  ⟨by rfl, by rfl, by decide⟩

/-- C8 (amended): display is a right inverse of parsing — parsing the display
of any well-formed ArgumentRef recovers it exactly — and the string-level
round-trip `display (parse ref_text) = ref_text` holds for canonically
written references such as `x.ins[0]` and `return[0].out`; it fails only on
non-canonical integer literals (leading zeros, see the counterexample). -/
theorem C8_display_parse_inverse :
    (∀ r : ArgumentRef, wellFormedRef r = true →
      parseArgumentRef (displayRef r) = some r) ∧
    (parseArgumentRef "x.ins[0]").map displayRef = some "x.ins[0]" ∧
    (parseArgumentRef "return[0].out").map displayRef = some "return[0].out" :=
  ⟨parse_displayRef, by rfl, by rfl⟩

/-- C8 witness: the universally quantified part of `C8_display_parse_inverse`
applied to the concrete reference `x.ins[0]`. -/
theorem C8_display_parse_inverse_witness :
    wellFormedRef ⟨"x", [.attr "ins", .idx 0]⟩ = true ∧
    parseArgumentRef (displayRef ⟨"x", [.attr "ins", .idx 0]⟩)
      = some ⟨"x", [.attr "ins", .idx 0]⟩ :=
  ⟨by decide, C8_display_parse_inverse.1 ⟨"x", [.attr "ins", .idx 0]⟩ (by decide)⟩

theorem noteSeg_in_flatten (w : String) :
    ∀ (notes : List String) (n : String), n ∈ notes →
      List.IsInfix ["", w ++ n] ((notes.map (fun m => ["", w ++ m])).flatten) := by
  intro notes
  induction notes with
  | nil => intro n hn; simp at hn
  | cons h t ih =>
    intro n hn
    rw [List.map_cons, List.flatten_cons]
    rcases List.mem_cons.mp hn with heq | hmem
    · subst heq
      exact ⟨[], _, rfl⟩
    · obtain ⟨s1, t1, hst⟩ := ih n hmem
      exact ⟨["", w ++ h] ++ s1, t1, by rw [← hst]; simp⟩

theorem insertNotes_note_block (w : String) (notes pre : List String) (n : String)
    (hn : n ∈ notes) : List.IsInfix ["", w ++ n] (insertNotes w notes pre) := by
  have hne : notes.isEmpty = false := by
    cases notes with
    | nil => simp at hn
    | cons a b => rfl
  unfold insertNotes
  simp only [hne, Bool.false_eq_true, if_false]
  obtain ⟨s1, t1, hst⟩ := noteSeg_in_flatten w notes n hn
  refine ⟨(pre.reverse.dropWhile isBlankS).reverse ++ s1,
          t1 ++ (pre.reverse.takeWhile isBlankS).reverse, ?_⟩
  rw [← hst]
  simp

/-- C9 counterexample: in the rewritten `funny_formatting_2` docstring the
inserted free-floating note line is followed directly by the first structured
field line, with no blank line between them — so the note is not separated
from the surrounding text by blank lines on both sides, although the
docstring has structured fields. -/
theorem C9_note_blank_counterexample :
    rewriteDocstring specFF doc_funny_formatting_2 = docExp_funny_formatting_2 ∧
    (docLines docExp_funny_formatting_2).getD 3 "x" = "" ∧
    (docLines docExp_funny_formatting_2).getD 4 "" = "        Function note." ∧
    (docLines docExp_funny_formatting_2).getD 5 "" = "        :param train:" ∧
    isBlankS "        :param train:" = false :=
  ⟨by rfl, by rfl, by rfl, by rfl, by rfl⟩

/-- C9 (amended): the rewriter inserts every free-floating Note, each as its
own paragraph, directly after the leading summary of the docstring and before the
first structured field; each note line is preceded by a blank line, while a
blank line follows the last note only when the original docstring already
separated its summary from the first field by one (as in the `notes`
corpus case, and unlike `funny_formatting_2`). -/
theorem C9_notes_insertion_amended :
    (∀ (w : String) (notes pre : List String) (n : String), n ∈ notes →
      List.IsInfix ["", w ++ n] (insertNotes w notes pre)) ∧
    parseAndRewriteDocstring true (some doc_notes) specNotes = some docExp_notes ∧
    parseAndRewriteDocstring true (some doc_funny_formatting_2) specFF
      = some docExp_funny_formatting_2 :=
  ⟨insertNotes_note_block, by rfl, by rfl⟩

/-- C9 witness: the universally quantified part of
`C9_notes_insertion_amended` applied to one concrete note. -/
theorem C9_notes_insertion_amended_witness :
    List.IsInfix ["", "    " ++ "A note."] (insertNotes "    " ["A note."] ["Summary."]) :=
  C9_notes_insertion_amended.1 "    " ["A note."] ["Summary."] "A note." (by simp)

end CheckShapes
